import Mathlib

/-!
Shallow embedding of `translate-selection.py`, a one-shot Wayland
translation pipeline.  The program is a linear sequence of external-process
invocations (`wl-paste`, `trans`, `notify-send`, `wl-copy`) with a single
top-level `except ScriptError` boundary.  We model the external world as an
`Env` record giving the outcome of each possible process invocation, and
every pipeline function returns the list of invocation events it performed
together with its Python-level result (normal value or raised exception).

Python string primitives used by the script (`str.strip`, `str.splitlines`,
`' '.join`) are modelled below on `List Char`; `str.strip` and
`str.splitlines` use the documented CPython character classes (the common
ASCII and Latin-1 members plus the Unicode line/paragraph separators; the
rarer Unicode space code points, which the script never meets, are omitted).
-/

set_option autoImplicit false

namespace TranslateSelection

/-- Characters CPython `str.splitlines` treats as line boundaries
(`\r\n` is additionally treated as a single boundary by `splitlinesAux`). -/
def isLineBreak (c : Char) : Bool :=
  c = '\n' || c = '\r' || c = '\x0b' || c = '\x0c' ||
  c = '\x1c' || c = '\x1d' || c = '\x1e' || c = '\x85' ||
  c = ' ' || c = ' '

/-- Characters CPython `str.strip` (no argument) removes: `str.isspace`. -/
def pyIsSpace (c : Char) : Bool :=
  c = ' ' || c = '\t' || isLineBreak c || c = '\x1f' || c = '\xa0'

/-- Remove trailing characters satisfying `p` (right half of `str.strip`). -/
def stripRight (p : Char → Bool) : List Char → List Char
  | [] => []
  | c :: rest =>
    match stripRight p rest with
    | [] => if p c then [] else [c]
    | r => c :: r

/-- Python `s.strip()`: drop leading and trailing whitespace. -/
def pyStrip (s : String) : String :=
  String.mk (stripRight pyIsSpace (s.data.dropWhile pyIsSpace))

/-- Worker for `pySplitlines`; `acc` holds the current line reversed
(`\r\n` counts as a single line boundary). -/
def splitlinesAux : List Char → List Char → List String
  | [], acc => if acc.isEmpty then [] else [String.mk acc.reverse]
  | '\r' :: '\n' :: rest, acc => String.mk acc.reverse :: splitlinesAux rest []
  | c :: rest, acc =>
    if isLineBreak c then
      String.mk acc.reverse :: splitlinesAux rest []
    else
      splitlinesAux rest (c :: acc)

/-- Python `s.splitlines()`. -/
def pySplitlines (s : String) : List String :=
  splitlinesAux s.data []

/-- Python `' '.join(l)`. -/
def joinSpace : List String → String
  | [] => ""
  | [s] => s
  | s :: rest => s ++ " " ++ joinSpace rest

/-- Python `str(list_of_strings)`, as it appears inside
`CalledProcessError` messages: `['trans', '-b', 'text']`. -/
def pyStrList (l : List String) : String :=
  "[" ++ String.intercalate ", " (l.map (fun s => "'" ++ s ++ "'")) ++ "]"

/-- `needle` is an initial segment of `hay`. -/
def leadsWith : List Char → List Char → Bool
  | [], _ => true
  | _ :: _, [] => false
  | a :: as, b :: bs => a = b && leadsWith as bs

/-- `needle` occurs contiguously somewhere inside `hay`. -/
def containsSub : List Char → List Char → Bool
  | needle, [] => needle.isEmpty
  | needle, c :: t => leadsWith needle (c :: t) || containsSub needle t

/-- Outcome of one attempted external-process launch, chosen by the
environment: either the interpreter fails to start the process (Python
raises e.g. `FileNotFoundError`, whose `str` is the carried message), or
the process runs to completion with an exit status and captured stdout. -/
inductive RunOutcome where
  | launchFailure (msg : String)
  | completed (returncode : Nat) (stdout : String)
  deriving DecidableEq

/-- A completed process as seen by the script (`subprocess.CompletedProcess`). -/
structure Proc where
  returncode : Nat
  stdout : String
  deriving DecidableEq

/-- A raised Python exception: either the script's own `ScriptError`
(the only kind the top-level boundary catches) or any other exception
(e.g. `FileNotFoundError` out of a bare `subprocess.run`). -/
inductive PyError where
  | scriptError (msg : String)
  | otherError (msg : String)
  deriving DecidableEq

/-- Python `str(e)` on a modelled exception. -/
def PyError.msg : PyError → String
  | .scriptError m => m
  | .otherError m => m

instance {ε α : Type} [DecidableEq ε] [DecidableEq α] :
    DecidableEq (Except ε α) := fun x y =>
  match x, y with
  | .ok a, .ok b =>
    if h : a = b then .isTrue (by rw [h]) else .isFalse (by simp [h])
  | .error e, .error f =>
    if h : e = f then .isTrue (by rw [h]) else .isFalse (by simp [h])
  | .ok _, .error _ => .isFalse (by simp)
  | .error _, .ok _ => .isFalse (by simp)

/-- One external-process invocation attempt: the argument vector and the
optional string fed to the process's standard input. -/
inductive Event where
  | exec (cmd : List String) (inputData : Option String)
  deriving DecidableEq

/-- The external world: the outcome of each process invocation the script
can make, plus the `shutil.which("trans")` probe. -/
structure Env where
  /-- `shutil.which("trans") is not None`. -/
  transAvailable : Bool
  /-- Outcome of `["wl-paste", "-p"]`. -/
  primaryPaste : RunOutcome
  /-- Outcome of `["wl-paste"]`. -/
  clipboardPaste : RunOutcome
  /-- Outcome of `["trans", "-b", text]` for a given `text`. -/
  transOutcome : String → RunOutcome
  /-- Outcome of a `notify-send` invocation with the given argument vector. -/
  notifyOutcome : List String → RunOutcome
  /-- Outcome of `["wl-copy"]` fed the given text on standard input. -/
  wlCopyOutcome : String → RunOutcome

/-- `str(subprocess.CalledProcessError(rc, cmd))` for a non-zero exit. -/
def calledProcessErrorStr (cmd : List String) (rc : Nat) : String :=
  "Command '" ++ pyStrList cmd ++ "' returned non-zero exit status " ++
    toString rc ++ "."

/-- `subprocess.run(cmd, ..., check=check)`: a launch failure raises; with
`check` set, a non-zero exit raises `CalledProcessError`; otherwise the
completed process is returned. -/
def subprocess_run (outcome : RunOutcome) (cmd : List String) (check : Bool) :
    Except PyError Proc :=
  match outcome with
  | .launchFailure msg => .error (.otherError msg)
  | .completed rc out =>
    if check = true ∧ rc ≠ 0 then
      .error (.otherError (calledProcessErrorStr cmd rc))
    else
      .ok ⟨rc, out⟩

/-- Message of the `ScriptError` raised by `run_command`:
an f-string over the space-joined argument vector and `str(e)`. -/
def cmdFailMsg (cmd : List String) (cause : String) : String :=
  "Command `" ++ joinSpace cmd ++ "` failed: " ++ cause

/-- `run_command` from the script: runs the process and converts any
exception (launch failure, or `CalledProcessError` when `check` is set)
into a `ScriptError` carrying the joined command and the cause. -/
def run_command (outcome : RunOutcome) (cmd : List String) (check : Bool) :
    Except PyError Proc :=
  match subprocess_run outcome cmd check with
  | .ok p => .ok p
  | .error e => .error (.scriptError (cmdFailMsg cmd e.msg))

/-- `is_command_available("trans")`: the `shutil.which` probe. -/
def is_command_available (env : Env) : Bool :=
  env.transAvailable

/-- `get_clipboard_text` from the script: read the primary selection via
`run_command`; if its stripped stdout is empty, fall back to the regular
clipboard; return the surviving content with line breaks collapsed to
single spaces, or `none` when both are empty.  Paired with the list of
invocation events performed. -/
def get_clipboard_text (env : Env) :
    List Event × Except PyError (Option String) :=
  let ev1 := Event.exec ["wl-paste", "-p"] none
  match run_command env.primaryPaste ["wl-paste", "-p"] true with
  | .error e => ⟨[ev1], .error e⟩
  | .ok p =>
    let content := pyStrip p.stdout
    if content = "" then
      let ev2 := Event.exec ["wl-paste"] none
      match run_command env.clipboardPaste ["wl-paste"] true with
      | .error e => ⟨[ev1, ev2], .error e⟩
      | .ok p2 =>
        let content2 := pyStrip p2.stdout
        if content2 = "" then
          ⟨[ev1, ev2], .ok none⟩
        else
          ⟨[ev1, ev2], .ok (some (joinSpace (pySplitlines content2)))⟩
    else
      ⟨[ev1], .ok (some (joinSpace (pySplitlines content)))⟩

/-- `ScriptError` message for an empty translation result. -/
def emptyResultMsg : String := "'trans-shell' returned an empty result."

/-- `translate_with_trans_shell` from the script: run
`["trans", "-b", text]` through `run_command` (check enabled), strip the
captured stdout, and raise `ScriptError` when the stripped result is
empty. -/
def translate_with_trans_shell (env : Env) (text : String) :
    List Event × Except PyError String :=
  let cmd := ["trans", "-b", text]
  let ev := Event.exec cmd none
  match run_command (env.transOutcome text) cmd true with
  | .error e => ⟨[ev], .error e⟩
  | .ok p =>
    let translated := pyStrip p.stdout
    if translated = "" then
      ⟨[ev], .error (.scriptError emptyResultMsg)⟩
    else
      ⟨[ev], .ok translated⟩

/-- `ScriptError` message when `trans` is absent from the search path. -/
def transMissingMsg : String :=
  "Fallback tool 'trans' not found. Please install 'trans-shell'."

/-- The informational no-selection notification's argument vector. -/
def noSelectionCmd : List String :=
  ["notify-send", "Translation", "No text selected or copied."]

/-- The success notification's argument vector
(`CONFIG["NOTIFICATION_TITLE"]` is `"Translated"`). -/
def successNotifyCmd (translated : String) : List String :=
  ["notify-send", "Translated", translated]

/-- The critical failure notification's argument vector. -/
def criticalNotifyCmd (msg : String) : List String :=
  ["notify-send", "-u", "critical", "Translation Failed", msg]

/-- The body of `main`'s `try` block (steps 1-5 of the script): the
availability check, the clipboard read, the translation, the success
notification via `run_command(..., check=False)`, and the clipboard
write via `run_command` (check enabled by default).  The no-selection
notification is a bare `subprocess.run`, so its launch failure surfaces
as a non-`ScriptError` exception. -/
def mainBody (env : Env) : List Event × Except PyError Unit :=
  if is_command_available env = false then
    ⟨[], .error (.scriptError transMissingMsg)⟩
  else
    match get_clipboard_text env with
    | ⟨evs, .error e⟩ => ⟨evs, .error e⟩
    | ⟨evs, .ok none⟩ =>
      match subprocess_run (env.notifyOutcome noSelectionCmd) noSelectionCmd
          false with
      | .error e => ⟨evs ++ [Event.exec noSelectionCmd none], .error e⟩
      | .ok _ => ⟨evs ++ [Event.exec noSelectionCmd none], .ok ()⟩
    | ⟨evs, .ok (some text)⟩ =>
      match translate_with_trans_shell env text with
      | ⟨evs2, .error e⟩ => ⟨evs ++ evs2, .error e⟩
      | ⟨evs2, .ok translated⟩ =>
        let ncmd := successNotifyCmd translated
        match run_command (env.notifyOutcome ncmd) ncmd false with
        | .error e => ⟨evs ++ evs2 ++ [Event.exec ncmd none], .error e⟩
        | .ok _ =>
          if translated = "" then
            ⟨evs ++ evs2 ++ [Event.exec ncmd none], .ok ()⟩
          else
            match run_command (env.wlCopyOutcome translated) ["wl-copy"]
                true with
            | .error e =>
              ⟨evs ++ evs2 ++ [Event.exec ncmd none,
                Event.exec ["wl-copy"] (some translated)], .error e⟩
            | .ok _ =>
              ⟨evs ++ evs2 ++ [Event.exec ncmd none,
                Event.exec ["wl-copy"] (some translated)], .ok ()⟩

/-- How the process ends: `main` returns normally (process exit code 0),
or an exception escapes `main` (CPython exits with a non-zero code). -/
inductive MainOutcome where
  | normalReturn
  | uncaught (e : PyError)
  deriving DecidableEq

/-- Process exit code for a `MainOutcome`. -/
def exitCode : MainOutcome → Nat
  | .normalReturn => 0
  | .uncaught _ => 1

/-- `main` from the script: run the pipeline body under the single
`except ScriptError` boundary.  A `ScriptError` is converted into a
critical notification via a bare `subprocess.run` (whose own launch
failure escapes uncaught); any non-`ScriptError` exception escapes. -/
def pymain (env : Env) : List Event × MainOutcome :=
  match mainBody env with
  | ⟨evs, .ok _⟩ => ⟨evs, .normalReturn⟩
  | ⟨evs, .error (.otherError m)⟩ => ⟨evs, .uncaught (.otherError m)⟩
  | ⟨evs, .error (.scriptError msg)⟩ =>
    let cmd := criticalNotifyCmd msg
    match subprocess_run (env.notifyOutcome cmd) cmd false with
    | .error e => ⟨evs ++ [Event.exec cmd none], .uncaught e⟩
    | .ok _ => ⟨evs ++ [Event.exec cmd none], .normalReturn⟩

/-- The executable an invocation launches. -/
def cmdHead : Event → Option String
  | .exec cmd _ => cmd.head?

/-- The invocation reads a clipboard or selection buffer (`wl-paste`). -/
def isClipboardRead (ev : Event) : Bool :=
  cmdHead ev = some "wl-paste"

/-- The invocation writes the clipboard buffer (`wl-copy`). -/
def isClipboardWrite (ev : Event) : Bool :=
  cmdHead ev = some "wl-copy"

/-- The invocation is a desktop notification (`notify-send`). -/
def isNotify (ev : Event) : Bool :=
  cmdHead ev = some "notify-send"

/-- The invocation is a translation-engine run (`trans`). -/
def isTransInvoke (ev : Event) : Bool :=
  cmdHead ev = some "trans"

/-- A fully successful environment: primary selection holds text, the
engine answers, every tool launches and exits 0 (end-to-end scenario A). -/
def envHappy : Env where
  transAvailable := true
  primaryPaste := .completed 0 "  hello\nworld  "
  clipboardPaste := .completed 0 ""
  transOutcome := fun _ => .completed 0 "HELLO WORLD\n"
  notifyOutcome := fun _ => .completed 0 ""
  wlCopyOutcome := fun _ => .completed 0 ""

/-- Like `envHappy`, but every `notify-send` invocation fails to launch. -/
def envNoNotifier : Env :=
  { envHappy with notifyOutcome := fun _ => .launchFailure "launch failed" }

/-- Like `envHappy`, but every `notify-send` launches and exits 1. -/
def envNotifierExits1 : Env :=
  { envHappy with notifyOutcome := fun _ => .completed 1 "boom" }

/-- Primary selection whitespace-only, regular clipboard holds text. -/
def envFallback : Env :=
  { envHappy with
      primaryPaste := .completed 0 "  "
      clipboardPaste := .completed 0 "  foo\nbar "
      transOutcome := fun _ => .completed 0 " OK \n" }

/-- Both selection buffers empty (end-to-end scenario B). -/
def envEmptyBoth : Env :=
  { envHappy with
      primaryPaste := .completed 0 " "
      clipboardPaste := .completed 0 "" }

/-- The engine exits 0 but prints only whitespace. -/
def envEmptyTrans : Env :=
  { envHappy with
      primaryPaste := .completed 0 "bonjour"
      transOutcome := fun _ => .completed 0 " " }

/-- The translation executable is absent (end-to-end scenario C). -/
def envNoTool : Env :=
  { envHappy with transAvailable := false }

/-- The translation executable is absent and `notify-send` cannot launch. -/
def envNoToolNoNotifier : Env :=
  { envNoTool with notifyOutcome := fun _ => .launchFailure "launch failed" }

/-- The engine exits non-zero (end-to-end scenario D). -/
def envTransFails : Env :=
  { envHappy with
      primaryPaste := .completed 0 "bonjour"
      transOutcome := fun _ => .completed 1 "err" }

/-! ### Helper lemmas -/

set_option maxHeartbeats 2000000 in
/-- Step equation for `splitlinesAux` on a head that does not start a
`\r\n` pair. -/
theorem splitlinesAux_cons (c : Char) (rest acc : List Char)
    (hnot : ∀ rest2, c = '\r' → rest = '\n' :: rest2 → False) :
    splitlinesAux (c :: rest) acc =
      if isLineBreak c then
        String.mk acc.reverse :: splitlinesAux rest []
      else
        splitlinesAux rest (c :: acc) :=
  splitlinesAux.eq_3 acc c rest hnot

theorem dropWhile_head_false {p : Char → Bool} :
    ∀ {l r : List Char} {c : Char}, l.dropWhile p = c :: r → p c = false := by
  intro l
  induction l with
  | nil => intro r c h; simp [List.dropWhile] at h
  | cons a t ih =>
    intro r c h
    rw [List.dropWhile_cons] at h
    by_cases ha : p a
    · rw [if_pos ha] at h; exact ih h
    · rw [if_neg ha] at h
      cases h
      simpa using ha

theorem stripRight_head {p : Char → Bool} :
    ∀ {l r : List Char} {c : Char}, stripRight p l = c :: r →
      ∃ r0, l = c :: r0 := by
  intro l
  cases l with
  | nil => intro r c h; simp [stripRight] at h
  | cons a t =>
    intro r c h
    unfold stripRight at h
    cases h' : stripRight p t with
    | nil =>
      rw [h'] at h
      by_cases ha : p a
      · simp [ha] at h
      · simp [ha] at h
        exact ⟨t, by rw [h.1]⟩
    | cons x xs =>
      rw [h'] at h
      simp at h
      exact ⟨t, by rw [h.1]⟩

theorem joinSpace_ne (s : String) (t : List String) (h : s ≠ "") :
    joinSpace (s :: t) ≠ "" := by
  cases t with
  | nil => simpa [joinSpace] using h
  | cons r ts =>
    simp only [joinSpace]
    intro hcon
    have hlen := congrArg String.length hcon
    simp [String.length_append] at hlen
    exact absurd hlen.1.2 (by decide)

theorem splitlinesAux_first :
    ∀ (l acc : List Char), acc ≠ [] →
      ∃ s t, splitlinesAux l acc = s :: t ∧ s ≠ "" := by
  intro l acc
  induction l, acc using splitlinesAux.induct with
  | case1 acc hacc =>
    intro h
    exact absurd (List.isEmpty_iff.mp hacc) h
  | case2 acc hacc =>
    intro h
    refine ⟨String.mk acc.reverse, [], ?_, ?_⟩
    · simp [splitlinesAux, hacc]
    · simpa [String.ext_iff] using h
  | case3 rest acc ih =>
    intro h
    refine ⟨String.mk acc.reverse, splitlinesAux rest [], ?_, ?_⟩
    · simp [splitlinesAux]
    · simpa [String.ext_iff] using h
  | case4 c rest acc hnot hb ih =>
    intro h
    refine ⟨String.mk acc.reverse, splitlinesAux rest [], ?_, ?_⟩
    · rw [splitlinesAux_cons c rest acc hnot, if_pos hb]
    · simpa [String.ext_iff] using h
  | case5 c rest acc hnot hb ih =>
    intro _
    obtain ⟨s, t, heq, hne⟩ := ih (by simp)
    refine ⟨s, t, ?_, hne⟩
    rw [splitlinesAux_cons c rest acc hnot, if_neg hb]
    exact heq

/-- A stripped non-empty string stays non-empty after collapsing its line
breaks to spaces: its first character is neither whitespace nor a break. -/
theorem normalized_ne (s : String) (h : pyStrip s ≠ "") :
    joinSpace (pySplitlines (pyStrip s)) ≠ "" := by
  have hmk : pyStrip s =
      String.mk (stripRight pyIsSpace (s.data.dropWhile pyIsSpace)) := rfl
  cases hdc : stripRight pyIsSpace (s.data.dropWhile pyIsSpace) with
  | nil => exact absurd (by rw [hmk, hdc]) h
  | cons c l =>
    obtain ⟨r0, hr0⟩ := stripRight_head hdc
    have hpc : pyIsSpace c = false := dropWhile_head_false hr0
    have hlb : isLineBreak c = false := by
      cases hli : isLineBreak c
      · rfl
      · rw [pyIsSpace, hli] at hpc
        simp at hpc
    have hnot : ∀ rest2, c = '\r' → l = '\n' :: rest2 → False := by
      intro rest2 hcr _
      rw [hcr] at hlb
      exact absurd hlb (by decide)
    have hred : pySplitlines (pyStrip s) = splitlinesAux l [c] := by
      rw [hmk, hdc]
      show splitlinesAux (c :: l) [] = splitlinesAux l [c]
      rw [splitlinesAux_cons c l [] hnot, if_neg (by simp [hlb])]
    obtain ⟨s0, t0, heq, hne⟩ := splitlinesAux_first l [c] (by simp)
    rw [hred, heq]
    exact joinSpace_ne s0 t0 hne

/-- `run_command` raises only `ScriptError`: every exception inside it is
caught and converted. -/
theorem run_command_error_script {outcome : RunOutcome} {cmd : List String}
    {check : Bool} {e : PyError}
    (h : run_command outcome cmd check = .error e) :
    ∃ m, e = .scriptError m := by
  unfold run_command at h
  cases hs : subprocess_run outcome cmd check with
  | ok p => rw [hs] at h; simp at h
  | error e0 => rw [hs] at h; simp at h; exact ⟨_, h.symm⟩

/-- The Selection Reader performs only `wl-paste` invocations: either the
primary read alone, or the primary read then the clipboard fallback. -/
theorem reader_trace (env : Env) :
    (get_clipboard_text env).1 = [Event.exec ["wl-paste", "-p"] none] ∨
    (get_clipboard_text env).1 =
      [Event.exec ["wl-paste", "-p"] none, Event.exec ["wl-paste"] none] := by
  cases h1 : run_command env.primaryPaste ["wl-paste", "-p"] true with
  | error e => left; simp [get_clipboard_text, h1]
  | ok p =>
    by_cases hc : pyStrip p.stdout = ""
    · cases h2 : run_command env.clipboardPaste ["wl-paste"] true with
      | error e => right; simp [get_clipboard_text, h1, h2, hc]
      | ok p2 =>
        by_cases hc2 : pyStrip p2.stdout = ""
        · right; simp [get_clipboard_text, h1, h2, hc, hc2]
        · right; simp [get_clipboard_text, h1, h2, hc, hc2]
    · left; simp [get_clipboard_text, h1, hc]

/-- The Selection Reader raises only `ScriptError`. -/
theorem reader_error_script {env : Env} {e : PyError}
    (h : (get_clipboard_text env).2 = .error e) :
    ∃ m, e = .scriptError m := by
  cases h1 : run_command env.primaryPaste ["wl-paste", "-p"] true with
  | error e1 =>
    simp [get_clipboard_text, h1] at h
    rw [h] at h1
    exact run_command_error_script h1
  | ok p =>
    by_cases hc : pyStrip p.stdout = ""
    · cases h2 : run_command env.clipboardPaste ["wl-paste"] true with
      | error e2 =>
        simp [get_clipboard_text, h1, h2, hc] at h
        rw [h] at h2
        exact run_command_error_script h2
      | ok p2 =>
        by_cases hc2 : pyStrip p2.stdout = "" <;>
          simp [get_clipboard_text, h1, h2, hc, hc2] at h
    · simp [get_clipboard_text, h1, hc] at h

/-- The Translator performs exactly one invocation: the engine run itself. -/
theorem translate_trace (env : Env) (t : String) :
    (translate_with_trans_shell env t).1 =
      [Event.exec ["trans", "-b", t] none] := by
  cases h1 : run_command (env.transOutcome t) ["trans", "-b", t] true with
  | error e => simp [translate_with_trans_shell, h1]
  | ok p =>
    by_cases hc : pyStrip p.stdout = "" <;>
      simp [translate_with_trans_shell, h1, hc]

/-- The Translator raises only `ScriptError`. -/
theorem translate_error_script {env : Env} {t : String} {e : PyError}
    (h : (translate_with_trans_shell env t).2 = .error e) :
    ∃ m, e = .scriptError m := by
  cases h1 : run_command (env.transOutcome t) ["trans", "-b", t] true with
  | error e1 =>
    simp [translate_with_trans_shell, h1] at h
    rw [h] at h1
    exact run_command_error_script h1
  | ok p =>
    by_cases hc : pyStrip p.stdout = ""
    · simp [translate_with_trans_shell, h1, hc] at h
      exact ⟨emptyResultMsg, h.symm⟩
    · simp [translate_with_trans_shell, h1, hc] at h

/-- A value returned by the Translator is never the empty string. -/
theorem translate_ok_ne_empty {env : Env} {t tr : String}
    (h : (translate_with_trans_shell env t).2 = .ok tr) : tr ≠ "" := by
  cases h1 : run_command (env.transOutcome t) ["trans", "-b", t] true with
  | error e1 => simp [translate_with_trans_shell, h1] at h
  | ok p =>
    by_cases hc : pyStrip p.stdout = ""
    · simp [translate_with_trans_shell, h1, hc] at h
    · simp [translate_with_trans_shell, h1, hc] at h
      exact fun hc' => hc (h.trans hc')

/-- The Selection Reader never returns the empty string. -/
theorem reader_ne_empty (env : Env) :
    (get_clipboard_text env).2 ≠ .ok (some "") := by
  intro h
  cases h1 : run_command env.primaryPaste ["wl-paste", "-p"] true with
  | error e => simp [get_clipboard_text, h1] at h
  | ok p =>
    by_cases hc : pyStrip p.stdout = ""
    · cases h2 : run_command env.clipboardPaste ["wl-paste"] true with
      | error e => simp [get_clipboard_text, h1, hc, h2] at h
      | ok p2 =>
        by_cases hc2 : pyStrip p2.stdout = ""
        · simp [get_clipboard_text, h1, hc, h2, hc2] at h
        · simp [get_clipboard_text, h1, hc, h2, hc2] at h
          exact normalized_ne _ hc2 h
    · simp [get_clipboard_text, h1, hc] at h
      exact normalized_ne _ hc h

/-- The Selection Reader's trace holds no notification, no clipboard
write and no translation invocation. -/
theorem reader_filters (env : Env) :
    (get_clipboard_text env).1.filter isNotify = [] ∧
    (get_clipboard_text env).1.filter isClipboardWrite = [] ∧
    (get_clipboard_text env).1.filter isTransInvoke = [] := by
  rcases reader_trace env with h | h <;> rw [h] <;> refine ⟨?_, ?_, ?_⟩ <;>
    decide

/-- A non-`ScriptError` exception escapes the pipeline body only when the
bare no-selection `subprocess.run` notification fails to launch. -/
theorem mainBody_otherError {env : Env} {m : String}
    (h : (mainBody env).2 = .error (.otherError m)) :
    env.notifyOutcome noSelectionCmd = .launchFailure m := by
  by_cases hA : is_command_available env = false
  · simp [mainBody, hA] at h
  · cases hg : get_clipboard_text env with
    | mk evs r =>
      cases r with
      | error e =>
        simp [mainBody, hA, hg] at h
        obtain ⟨m', hm'⟩ := reader_error_script (by rw [hg])
        rw [hm'] at h
        simp at h
      | ok o =>
        cases o with
        | none =>
          cases hn : env.notifyOutcome noSelectionCmd with
          | launchFailure msg =>
            simp [mainBody, hA, hg, hn, subprocess_run] at h
            rw [h]
          | completed rc out =>
            simp [mainBody, hA, hg, hn, subprocess_run] at h
        | some t =>
          cases ht : translate_with_trans_shell env t with
          | mk evs2 r2 =>
            cases r2 with
            | error e =>
              simp [mainBody, hA, hg, ht] at h
              obtain ⟨m', hm'⟩ := translate_error_script (t := t) (by rw [ht])
              rw [hm'] at h
              simp at h
            | ok tr =>
              cases hn : run_command (env.notifyOutcome (successNotifyCmd tr))
                  (successNotifyCmd tr) false with
              | error e =>
                simp [mainBody, hA, hg, ht, hn] at h
                obtain ⟨m', hm'⟩ := run_command_error_script hn
                rw [hm'] at h
                simp at h
              | ok pn =>
                by_cases htr : tr = ""
                · subst htr
                  simp [mainBody, hA, hg, ht, hn] at h
                · cases hw : run_command (env.wlCopyOutcome tr) ["wl-copy"]
                      true with
                  | error e =>
                    simp [mainBody, hA, hg, ht, hn, htr, hw] at h
                    obtain ⟨m', hm'⟩ := run_command_error_script hw
                    rw [hm'] at h
                    simp at h
                  | ok pw =>
                    simp [mainBody, hA, hg, ht, hn, htr, hw] at h

/-- `main` either keeps the body's trace unchanged, or — exactly when the
body raised a `ScriptError` — appends the one critical notification. -/
theorem pymain_trace (env : Env) :
    (pymain env).1 = (mainBody env).1 ∨
    ∃ msg, (mainBody env).2 = .error (.scriptError msg) ∧
      (pymain env).1 =
        (mainBody env).1 ++ [Event.exec (criticalNotifyCmd msg) none] := by
  cases hb : mainBody env with
  | mk evs r =>
    cases r with
    | ok u => left; simp [pymain, hb]
    | error e =>
      cases e with
      | otherError m => left; simp [pymain, hb]
      | scriptError msg =>
        right
        refine ⟨msg, rfl, ?_⟩
        cases hn : subprocess_run (env.notifyOutcome (criticalNotifyCmd msg))
            (criticalNotifyCmd msg) false with
        | error e2 => simp [pymain, hb, hn]
        | ok pn => simp [pymain, hb, hn]

/-- The pipeline's trace holds either no translation invocation, or
exactly one, whose positional argument is the text the reader returned. -/
theorem mainBody_trans_filter (env : Env) :
    (mainBody env).1.filter isTransInvoke = [] ∨
    ∃ t, (get_clipboard_text env).2 = .ok (some t) ∧
      (mainBody env).1.filter isTransInvoke =
        [Event.exec ["trans", "-b", t] none] := by
  have hev := (reader_filters env).2.2
  by_cases hA : is_command_available env = false
  · left; simp [mainBody, hA]
  · cases hg : get_clipboard_text env with
    | mk evs r =>
      rw [hg] at hev
      simp only at hev
      cases r with
      | error e => left; simp [mainBody, hA, hg, hev]
      | ok o =>
        cases o with
        | none =>
          left
          cases hn : subprocess_run (env.notifyOutcome noSelectionCmd)
              noSelectionCmd false with
          | error e =>
            simp [mainBody, hA, hg, hn, List.filter_append, hev]
            decide
          | ok pn =>
            simp [mainBody, hA, hg, hn, List.filter_append, hev]
            decide
        | some t =>
          right
          refine ⟨t, rfl, ?_⟩
          cases ht : translate_with_trans_shell env t with
          | mk evs2 r2 =>
            have hev2 : evs2 = [Event.exec ["trans", "-b", t] none] := by
              have := translate_trace env t
              rw [ht] at this
              simpa using this
            subst hev2
            cases r2 with
            | error e =>
              simp [mainBody, hA, hg, ht, List.filter_append, hev,
                isTransInvoke, cmdHead]
            | ok tr =>
              cases hn : run_command (env.notifyOutcome (successNotifyCmd tr))
                  (successNotifyCmd tr) false with
              | error e =>
                simp only [successNotifyCmd] at hn
                simp [mainBody, hA, hg, ht, hn, List.filter_append, hev,
                  isTransInvoke, cmdHead, successNotifyCmd]
              | ok pn =>
                simp only [successNotifyCmd] at hn
                by_cases htr : tr = ""
                · subst htr
                  simp [mainBody, hA, hg, ht, hn, List.filter_append,
                    hev, isTransInvoke, cmdHead, successNotifyCmd]
                · cases hw : run_command (env.wlCopyOutcome tr) ["wl-copy"]
                      true with
                  | error e =>
                    simp [mainBody, hA, hg, ht, hn, htr, hw,
                      List.filter_append, hev, isTransInvoke, cmdHead,
                      successNotifyCmd]
                  | ok pw =>
                    simp [mainBody, hA, hg, ht, hn, htr, hw,
                      List.filter_append, hev, isTransInvoke, cmdHead,
                      successNotifyCmd]

/-! ### Claims -/

/-- C1 counterexample: with a successful translation but a notifier that
fails to launch, the success-path notification failure is NOT swallowed —
`run_command` converts the launch failure into a `ScriptError`, the
critical-error path fires, and the clipboard write stage is never
reached. -/
theorem C1_counterexample :
    (translate_with_trans_shell envNoNotifier "hello world").2 =
      .ok "HELLO WORLD" ∧
    (pymain envNoNotifier).1.filter isClipboardWrite = [] ∧
    (Event.exec (criticalNotifyCmd
        (cmdFailMsg (successNotifyCmd "HELLO WORLD") "launch failed")) none)
      ∈ (pymain envNoNotifier).1 := by
  refine ⟨by decide, by decide, by decide⟩

/-- C1 (amended): after a successful translation, a success-path notifier
that launches and completes — with any exit status, zero or not — never
prevents the clipboard write: the `wl-copy` invocation is always reached.
(A notifier launch failure, by contrast, raises and skips it, as the
counterexample shows.) -/
theorem C1_notifier_exit_swallowed (env : Env) (t tr : String)
    (rc : Nat) (out : String)
    (hA : env.transAvailable = true)
    (hread : (get_clipboard_text env).2 = .ok (some t))
    (htr : (translate_with_trans_shell env t).2 = .ok tr)
    (hn : env.notifyOutcome (successNotifyCmd tr) = .completed rc out) :
    Event.exec ["wl-copy"] (some tr) ∈ (pymain env).1 := by
  have htrne : tr ≠ "" := translate_ok_ne_empty htr
  cases hg : get_clipboard_text env with
  | mk evs r =>
    rw [hg] at hread
    simp only at hread
    subst hread
    cases ht2 : translate_with_trans_shell env t with
    | mk evs2 r2 =>
      rw [ht2] at htr
      simp only at htr
      subst htr
      have hnr : run_command (env.notifyOutcome (successNotifyCmd tr))
          (successNotifyCmd tr) false = .ok ⟨rc, out⟩ := by
        simp [run_command, subprocess_run, hn]
      simp only [successNotifyCmd] at hnr
      cases hw : run_command (env.wlCopyOutcome tr) ["wl-copy"] true with
      | error e =>
        obtain ⟨m, hm⟩ := run_command_error_script hw
        subst hm
        cases hcrit : subprocess_run (env.notifyOutcome (criticalNotifyCmd m))
            (criticalNotifyCmd m) false <;>
          simp [pymain, mainBody, is_command_available, hA, hg, ht2, hnr,
            htrne, hw, hcrit, successNotifyCmd]
      | ok pw =>
        simp [pymain, mainBody, is_command_available, hA, hg, ht2, hnr,
          htrne, hw, successNotifyCmd]

/-- C1 witness: `envNotifierExits1`'s notifier exits 1, yet the clipboard
write still happens. -/
theorem C1_witness :
    Event.exec ["wl-copy"] (some "HELLO WORLD") ∈ (pymain envNotifierExits1).1 :=
  C1_notifier_exit_swallowed envNotifierExits1 "hello world" "HELLO WORLD"
    1 "boom" rfl (by decide) (by decide) rfl

/-- C2: when the primary-selection read succeeds with output that strips
to empty and the clipboard read succeeds with text that is non-empty after
trimming, the Selection Reader returns that text trimmed with every
internal line break collapsed to a single space. -/
theorem C2_reader_fallback_normalizes (env : Env) (s1 s2 : String)
    (h1 : env.primaryPaste = .completed 0 s1) (h1e : pyStrip s1 = "")
    (h2 : env.clipboardPaste = .completed 0 s2) (h2ne : pyStrip s2 ≠ "") :
    (get_clipboard_text env).2 =
      .ok (some (joinSpace (pySplitlines (pyStrip s2)))) := by
  simp [get_clipboard_text, run_command, subprocess_run, h1, h2, h1e, h2ne]

/-- C2 witness: primary = `"  "`, clipboard = `"  foo\nbar "` gives
`"foo bar"`. -/
theorem C2_witness :
    (get_clipboard_text envFallback).2 = .ok (some "foo bar") := by
  have h := C2_reader_fallback_normalizes envFallback "  " "  foo\nbar "
    rfl (by decide) rfl (by decide)
  rw [h]
  decide

/-- C3: with both reads succeeding but both stripping to empty, the
Selection Reader returns `none`, and the run sends exactly one
notification — the informational one with body
"No text selected or copied." — with no translator invocation and no
clipboard write. -/
theorem C3_no_selection (env : Env) (s1 s2 : String)
    (hA : env.transAvailable = true)
    (h1 : env.primaryPaste = .completed 0 s1) (h1e : pyStrip s1 = "")
    (h2 : env.clipboardPaste = .completed 0 s2) (h2e : pyStrip s2 = "") :
    (get_clipboard_text env).2 = .ok none ∧
    (pymain env).1.filter isNotify = [Event.exec noSelectionCmd none] ∧
    (pymain env).1.filter isTransInvoke = [] ∧
    (pymain env).1.filter isClipboardWrite = [] := by
  have hg : get_clipboard_text env =
      ⟨[Event.exec ["wl-paste", "-p"] none, Event.exec ["wl-paste"] none],
        .ok none⟩ := by
    simp [get_clipboard_text, run_command, subprocess_run, h1, h2, h1e, h2e]
  have htrace : (pymain env).1 =
      [Event.exec ["wl-paste", "-p"] none, Event.exec ["wl-paste"] none,
        Event.exec noSelectionCmd none] := by
    cases hn : env.notifyOutcome noSelectionCmd with
    | launchFailure m =>
      simp [pymain, mainBody, is_command_available, hA, hg, subprocess_run, hn]
    | completed rc out =>
      simp [pymain, mainBody, is_command_available, hA, hg, subprocess_run, hn]
  refine ⟨by rw [hg], ?_, ?_, ?_⟩ <;> rw [htrace] <;> decide

/-- C3 witness at `envEmptyBoth`. -/
theorem C3_witness :
    (get_clipboard_text envEmptyBoth).2 = .ok none ∧
    (pymain envEmptyBoth).1.filter isNotify =
      [Event.exec noSelectionCmd none] ∧
    (pymain envEmptyBoth).1.filter isTransInvoke = [] ∧
    (pymain envEmptyBoth).1.filter isClipboardWrite = [] :=
  C3_no_selection envEmptyBoth " " "" rfl rfl (by decide) rfl (by decide)

/-- C4 counterexample: the engine exits 0 with the non-empty stdout `" "`,
yet the Translator raises the empty-result `ScriptError` instead of
returning the trimmed output — the claim's "non-empty standard output"
hypothesis does not suffice when the output is whitespace-only. -/
theorem C4_counterexample :
    (" " : String) ≠ "" ∧
    envEmptyTrans.transOutcome "bonjour" = .completed 0 " " ∧
    (translate_with_trans_shell envEmptyTrans "bonjour").2 =
      .error (.scriptError emptyResultMsg) := by
  refine ⟨by decide, rfl, by decide⟩

/-- C4 (amended): for a non-empty input, if the engine exits 0 with stdout
that is non-empty AFTER trimming, the Translator returns the trimmed
stdout and does not raise. -/
theorem C4_translator_returns_trimmed (env : Env) (t X : String)
    (ht : t ≠ "") (hX : env.transOutcome t = .completed 0 X)
    (hne : pyStrip X ≠ "") :
    (translate_with_trans_shell env t).2 = .ok (pyStrip X) := by
  simp [translate_with_trans_shell, run_command, subprocess_run, hX, hne]

/-- C4 witness: stdout `" OK \n"` comes back as `"OK"`. -/
theorem C4_witness :
    (translate_with_trans_shell envFallback "bonjour").2 = .ok "OK" := by
  have h := C4_translator_returns_trimmed envFallback "bonjour" " OK \n"
    (by decide) rfl (by decide)
  rw [h]
  decide

/-- C5: if the engine exits 0 with stdout that is empty or whitespace-only,
the Translator raises the empty-translation-result `ScriptError` (the same
exception type as a process-level `CommandExecutionError`, hence surfaced
identically, but with its own distinct message). -/
theorem C5_empty_result_raises (env : Env) (t X : String)
    (hX : env.transOutcome t = .completed 0 X) (hws : pyStrip X = "") :
    (translate_with_trans_shell env t).2 =
      .error (.scriptError emptyResultMsg) := by
  simp [translate_with_trans_shell, run_command, subprocess_run, hX, hws]

/-- C5 witness: whitespace-only engine output raises the empty-result
error. -/
theorem C5_witness :
    pyStrip " " = "" ∧
    (translate_with_trans_shell envEmptyTrans "hello").2 =
      .error (.scriptError emptyResultMsg) :=
  ⟨by decide, C5_empty_result_raises envEmptyTrans "hello" " " rfl (by decide)⟩

/-- C6: when the translation executable is missing, the whole trace is the
single critical notification (whose body mentions installing the tool); in
particular no clipboard read is ever attempted. -/
theorem C6_missing_tool_no_read (env : Env)
    (hA : env.transAvailable = false) :
    (pymain env).1 = [Event.exec (criticalNotifyCmd transMissingMsg) none] ∧
    (pymain env).1.filter isClipboardRead = [] ∧
    containsSub "install".data transMissingMsg.data = true := by
  have h1 : (pymain env).1 =
      [Event.exec (criticalNotifyCmd transMissingMsg) none] := by
    cases hn : env.notifyOutcome (criticalNotifyCmd transMissingMsg) with
    | launchFailure m =>
      simp [pymain, mainBody, is_command_available, hA, subprocess_run, hn]
    | completed rc out =>
      simp [pymain, mainBody, is_command_available, hA, subprocess_run, hn]
  refine ⟨h1, by rw [h1]; decide, by decide⟩

/-- C6 witness at `envNoTool`. -/
theorem C6_witness :
    (pymain envNoTool).1 =
      [Event.exec (criticalNotifyCmd transMissingMsg) none] ∧
    (pymain envNoTool).1.filter isClipboardRead = [] ∧
    containsSub "install".data transMissingMsg.data = true :=
  C6_missing_tool_no_read envNoTool rfl

/-- C7: translator present, a non-empty selection read, engine exits
non-zero: the run sends exactly one notification — the critical one whose
body is the execution-failure message — and never invokes the clipboard
write. -/
theorem C7_engine_nonzero_exit (env : Env) (t : String) (rc : Nat)
    (out : String)
    (hA : env.transAvailable = true)
    (hread : (get_clipboard_text env).2 = .ok (some t))
    (hrc : env.transOutcome t = .completed rc out) (hne : rc ≠ 0) :
    (pymain env).1.filter isNotify =
      [Event.exec (criticalNotifyCmd (cmdFailMsg ["trans", "-b", t]
        (calledProcessErrorStr ["trans", "-b", t] rc))) none] ∧
    (pymain env).1.filter isClipboardWrite = [] := by
  have hfn := (reader_filters env).1
  have hfw := (reader_filters env).2.1
  cases hg : get_clipboard_text env with
  | mk evs r =>
    rw [hg] at hread hfn hfw
    simp only at hread hfn hfw
    subst hread
    have htr : translate_with_trans_shell env t =
        ⟨[Event.exec ["trans", "-b", t] none],
          .error (.scriptError (cmdFailMsg ["trans", "-b", t]
            (calledProcessErrorStr ["trans", "-b", t] rc)))⟩ := by
      simp [translate_with_trans_shell, run_command, subprocess_run, hrc,
        hne, PyError.msg]
    cases hn : env.notifyOutcome (criticalNotifyCmd (cmdFailMsg
        ["trans", "-b", t] (calledProcessErrorStr ["trans", "-b", t] rc)))
        with
    | launchFailure m =>
      simp only [criticalNotifyCmd] at hn
      constructor <;>
        simp [pymain, mainBody, is_command_available, hA, hg, htr,
          subprocess_run, hn, List.filter_append, hfn, hfw, isNotify,
          isClipboardWrite, cmdHead, criticalNotifyCmd]
    | completed rc2 out2 =>
      simp only [criticalNotifyCmd] at hn
      constructor <;>
        simp [pymain, mainBody, is_command_available, hA, hg, htr,
          subprocess_run, hn, List.filter_append, hfn, hfw, isNotify,
          isClipboardWrite, cmdHead, criticalNotifyCmd]

/-- C7 witness at `envTransFails`. -/
theorem C7_witness :
    (pymain envTransFails).1.filter isNotify =
      [Event.exec (criticalNotifyCmd (cmdFailMsg ["trans", "-b", "bonjour"]
        (calledProcessErrorStr ["trans", "-b", "bonjour"] 1))) none] ∧
    (pymain envTransFails).1.filter isClipboardWrite = [] :=
  C7_engine_nonzero_exit envTransFails "bonjour" 1 "err" rfl (by decide)
    rfl (by decide)

/-- C8: the Command Runner raises a `ScriptError` carrying the joined
argument vector and the cause exactly when the launch fails or — with
failure-checking enabled — when the exit status is non-zero; with checking
disabled, a completed process is returned whatever its exit status, with
its captured standard output. -/
theorem C8_run_command_characterization (cmd : List String) :
    (∀ m check, run_command (.launchFailure m) cmd check =
        .error (.scriptError (cmdFailMsg cmd m))) ∧
    (∀ rc out, run_command (.completed rc out) cmd true =
        if rc = 0 then .ok ⟨rc, out⟩
        else .error (.scriptError
          (cmdFailMsg cmd (calledProcessErrorStr cmd rc)))) ∧
    (∀ rc out, run_command (.completed rc out) cmd false =
        .ok ⟨rc, out⟩) := by
  refine ⟨fun m check => rfl, fun rc out => ?_, fun rc out => rfl⟩
  by_cases h : rc = 0
  · simp [run_command, subprocess_run, h]
  · simp [run_command, subprocess_run, h, PyError.msg]

/-- C9 counterexample: with the translator missing AND `notify-send`
unable to launch, the fatal `ScriptError` is caught at the boundary, but
the conversion to a critical notification itself raises an uncaught
exception, so the process does NOT return normally and its exit code is 1,
not 0. -/
theorem C9_counterexample :
    (mainBody envNoToolNoNotifier).2 =
      .error (.scriptError transMissingMsg) ∧
    (pymain envNoToolNoNotifier).2 =
      .uncaught (.otherError "launch failed") ∧
    exitCode (pymain envNoToolNoNotifier).2 = 1 := by
  refine ⟨by decide, by decide, by decide⟩

/-- C9 (amended): provided every `notify-send` invocation launches, every
`ScriptError` raised in the pipeline body is caught at the single
top-level boundary and converted into exactly one critical notification
carrying the error's message, after which `main` returns normally with
exit code 0 — on every completion path, `NoSelection` and `Failed`
included. -/
theorem C9_single_boundary (env : Env)
    (hn : ∀ args, ∃ rc out, env.notifyOutcome args = .completed rc out) :
    exitCode (pymain env).2 = 0 ∧
    (∀ msg, (mainBody env).2 = .error (.scriptError msg) →
      (pymain env).1 =
        (mainBody env).1 ++ [Event.exec (criticalNotifyCmd msg) none] ∧
      (pymain env).2 = .normalReturn) := by
  cases hb : mainBody env with
  | mk evs r =>
    cases r with
    | ok u =>
      refine ⟨by simp [pymain, hb, exitCode], ?_⟩
      intro msg hmsg
      simp at hmsg
    | error e =>
      cases e with
      | otherError m =>
        exfalso
        have hob : (mainBody env).2 = .error (.otherError m) := by rw [hb]
        have hcontra := mainBody_otherError hob
        obtain ⟨rc, out, hco⟩ := hn noSelectionCmd
        rw [hco] at hcontra
        exact RunOutcome.noConfusion hcontra
      | scriptError msg0 =>
        obtain ⟨rc, out, hco⟩ := hn (criticalNotifyCmd msg0)
        have hsp : subprocess_run (env.notifyOutcome (criticalNotifyCmd msg0))
            (criticalNotifyCmd msg0) false = .ok ⟨rc, out⟩ := by
          simp [subprocess_run, hco]
        refine ⟨by simp [pymain, hb, hsp, exitCode], ?_⟩
        intro msg hmsg
        simp at hmsg
        subst hmsg
        constructor
        · simp [pymain, hb, hsp]
        · simp [pymain, hb, hsp]

/-- C9 witness: translator missing, notifier healthy — one critical
notification, normal return, exit code 0. -/
theorem C9_witness :
    exitCode (pymain envNoTool).2 = 0 ∧
    (pymain envNoTool).1 =
      [Event.exec (criticalNotifyCmd transMissingMsg) none] ∧
    (pymain envNoTool).2 = .normalReturn := by
  have h := C9_single_boundary envNoTool (fun args => ⟨0, "", rfl⟩)
  refine ⟨h.1, ?_, (h.2 transMissingMsg (by decide)).2⟩
  have h2 := (h.2 transMissingMsg (by decide)).1
  rw [h2]
  decide

/-- C10: the Selection Reader never returns the empty string, and hence
the whole run contains either no translation invocation at all or exactly
one, whose positional argument is the (non-empty) text the reader
returned. -/
theorem C10_translator_arg_nonempty (env : Env) :
    (get_clipboard_text env).2 ≠ .ok (some "") ∧
    ((pymain env).1.filter isTransInvoke = [] ∨
      ∃ t, t ≠ "" ∧ (get_clipboard_text env).2 = .ok (some t) ∧
        (pymain env).1.filter isTransInvoke =
          [Event.exec ["trans", "-b", t] none]) := by
  refine ⟨reader_ne_empty env, ?_⟩
  have hcrit : ∀ msg, List.filter isTransInvoke
      [Event.exec (criticalNotifyCmd msg) none] = [] := by
    intro msg
    simp [criticalNotifyCmd, isTransInvoke, cmdHead]
  rcases pymain_trace env with hp | ⟨msg, hmsg, hp⟩ <;>
    rcases mainBody_trans_filter env with hf | ⟨t, hrt, hf⟩
  · left
    rw [hp]
    exact hf
  · right
    exact ⟨t, fun h0 => reader_ne_empty env (h0 ▸ hrt), hrt,
      by rw [hp]; exact hf⟩
  · left
    rw [hp, List.filter_append, hf, hcrit msg]
    simp
  · right
    refine ⟨t, fun h0 => reader_ne_empty env (h0 ▸ hrt), hrt, ?_⟩
    rw [hp, List.filter_append, hf, hcrit msg]
    simp

/-- C10 witness: in the happy scenario the single engine invocation
carries the non-empty reader output. -/
theorem C10_witness :
    (pymain envHappy).1.filter isTransInvoke =
      [Event.exec ["trans", "-b", "hello world"] none] := by
  rcases (C10_translator_arg_nonempty envHappy).2 with h | ⟨t, htne, hrt, hf⟩
  · exact absurd h (by decide)
  · have hr : (get_clipboard_text envHappy).2 = .ok (some "hello world") := by
      decide
    rw [hr] at hrt
    simp at hrt
    subst hrt
    exact hf

end TranslateSelection
